import Mathlib

/-!
Verification development for the Tabular Data Gateway of `src/dashboard1.py`
(GlioTarget Aptamer Explorer).  The Python code is a thin layer over SQLite
via pandas: `create_database_tables` issues `CREATE TABLE IF NOT EXISTS` for
the three tables `egfr`, `aptamers`, `interactions`; `load_data_from_csv` /
`load_data_from_dataframe` call `DataFrame.to_sql(..., if_exists="replace",
index=False)`; `fetch_data` runs a parameterized query and returns an empty
DataFrame on any failure; `main` issues the concrete queries
(`SELECT * FROM t`, `SELECT * FROM t WHERE id = ?`,
`SELECT * FROM aptamers WHERE {field} LIKE ?` with pattern `'%'+term+'%'`,
and the interaction filters).

The embedding below represents a SQLite value, a table / pandas DataFrame
(column names plus rows), the database as an association list from table
name to table, and the gateway operations as pure functions.  SQLite's
default `LIKE` operator is modelled faithfully: `%` matches any sequence,
`_` matches one character, and ordinary characters compare after ASCII
upper-to-lower case folding (SQLite's documented default, ASCII-only).
-/

set_option autoImplicit false

namespace Radar

/-- A SQLite storage-class value.  `REAL` is modelled as a rational; the
claims below never depend on floating-point rounding. -/
inductive Value where
  | null
  | int (n : Int)
  | real (q : Rat)
  | text (s : String)
deriving DecidableEq

/-- A pandas DataFrame and equally a SQLite table: column names in order plus
rows of values.  `to_sql(if_exists="replace")` makes the stored table exactly
the frame, so one representation serves both. -/
structure DataFrame where
  cols : List String
  rows : List (List Value)
deriving DecidableEq

/-- The empty frame `pd.DataFrame()`. -/
def emptyDF : DataFrame := ⟨[], []⟩

/-- `df.empty` in pandas: true when there are no rows. -/
def DataFrame.isEmpty (df : DataFrame) : Bool := df.rows.isEmpty

/-- The SQLite database: an association list from table name to table. -/
abbrev DB := List (String × DataFrame)

/-- Find a table by name (SQLite name resolution). -/
def dbLookup : DB → String → Option DataFrame
  | [], _ => none
  | (n, t) :: rest, name => if n = name then some t else dbLookup rest name

/-- Replace the binding of `name` (dropping the previous table) or create it:
the effect of `to_sql(..., if_exists="replace")` on the catalog. -/
def dbSet : DB → String → DataFrame → DB
  | [], name, df => [(name, df)]
  | (n, t) :: rest, name, df =>
    if n = name then (name, df) :: rest else (n, t) :: dbSet rest name df

/-- Index of a column name in a table header (SQLite column resolution;
`none` models the `no such column` error). -/
def colIndex : List String → String → Option Nat
  | [], _ => none
  | c :: rest, f => if c = f then some 0 else (colIndex rest f).map (· + 1)

/-- SQLite `=` between two values: `NULL` compares equal to nothing, numeric
storage classes compare numerically, text compares as text, and distinct
non-numeric storage classes are unequal. -/
def sqlEq : Value → Value → Bool
  | .null, _ => false
  | _, .null => false
  | .int a, .int b => a == b
  | .int a, .real q => q.num == a && q.den == 1
  | .real q, .int a => q.num == a && q.den == 1
  | .real p, .real q => p == q
  | .text s, .text t => s == t
  | .int _, .text _ => false
  | .real _, .text _ => false
  | .text _, .int _ => false
  | .text _, .real _ => false

/-- SQLite's default case folding for `LIKE`: ASCII upper to lower, all other
characters unchanged.  -/
def foldChar (c : Char) : Char :=
  if 'A' ≤ c ∧ c ≤ 'Z' then Char.ofNat (c.toNat + 32) else c

/-- `t` is a prefix of `s` (exact, case-sensitive character comparison). -/
def isPrefixList : List Char → List Char → Bool
  | [], _ => true
  | _ :: _, [] => false
  | a :: as, b :: bs => (a == b) && isPrefixList as bs

/-- `t` occurs as a contiguous substring of `s` (exact comparison). -/
def containsSub (t : List Char) : List Char → Bool
  | [] => isPrefixList t []
  | c :: s => isPrefixList t (c :: s) || containsSub t s

/-- Does `f` accept some suffix of the list (the list itself included)? -/
def anyTail (f : List Char → Bool) : List Char → Bool
  | [] => f []
  | c :: s => f (c :: s) || anyTail f s

/-- SQLite's default `LIKE` pattern match: `%` matches any (possibly empty)
sequence, `_` matches exactly one character, and every other pattern
character matches a text character after ASCII case folding of both sides. -/
def likeMatch : List Char → List Char → Bool
  | [], s => s.isEmpty
  | p :: ps, s =>
    if p = '%' then anyTail (likeMatch ps) s
    else
      match s with
      | [] => false
      | c :: s' =>
        if p = '_' then likeMatch ps s'
        else (foldChar p == foldChar c) && likeMatch ps s'

/-- The pattern `'%' + term + '%'` built by the search page of `main`. -/
def likePattern (term : String) : List Char := '%' :: (term.data ++ ['%'])

/-- `value LIKE '%'+term+'%'` on one stored value.  `NULL LIKE p` is `NULL`,
which excludes the row; non-text values are cast to their text rendering. -/
def likeValue (term : String) : Value → Bool
  | .null => false
  | .int n => likeMatch (likePattern term) (toString n).data
  | .real q => likeMatch (likePattern term) (toString q).data
  | .text s => likeMatch (likePattern term) s.data

/-- The `WHERE col = ?` test on one row: compare the cell at index `i`
against the parameter with SQLite equality (a missing cell is `NULL`). -/
def rowEqAt (r : List Value) (i : Nat) (v : Value) : Bool :=
  match r.get? i with
  | some w => sqlEq w v
  | none => false

/-- The `WHERE col LIKE ?` test on one row. -/
def rowLikeAt (r : List Value) (i : Nat) (term : String) : Bool :=
  match r.get? i with
  | some w => likeValue term w
  | none => false

/-- The parameterized queries `main` passes to `fetch_data`
(src/dashboard1.py lines 221, 229, 239, 247, 259-263, 272, 284-287,
295-298, 304). -/
inductive Query where
  | selectAll (table : String)
  | selectWhereEq (table : String) (col : String) (v : Value)
  | selectWhereLike (table : String) (col : String) (term : String)

/-- Execute one query against the database; `none` models the exception
`pandas.read_sql_query` raises (missing table, missing column). -/
def runQuery (db : DB) : Query → Option DataFrame
  | .selectAll t => dbLookup db t
  | .selectWhereEq t c v =>
    match dbLookup db t with
    | none => none
    | some tbl =>
      match colIndex tbl.cols c with
      | none => none
      | some i => some ⟨tbl.cols, tbl.rows.filter (fun r => rowEqAt r i v)⟩
  | .selectWhereLike t c term =>
    match dbLookup db t with
    | none => none
    | some tbl =>
      match colIndex tbl.cols c with
      | none => none
      | some i => some ⟨tbl.cols, tbl.rows.filter (fun r => rowLikeAt r i term)⟩

/-- Embeds `fetch_data` (src/dashboard1.py lines 25-37): on a `None`
connection return `pd.DataFrame()`; run the query and on any exception
return `pd.DataFrame()`; otherwise return the result frame.  The connection
is `Option DB`: `none` is the `None` that `get_sqlite_connection` returns on
a connection error (lines 12-22). -/
def fetch_data (conn : Option DB) (q : Query) : DataFrame :=
  match conn with
  | none => emptyDF
  | some db =>
    match runQuery db q with
    | none => emptyDF
    | some df => df

/-- Embeds `load_data_from_dataframe` (src/dashboard1.py lines 70-78):
`df.to_sql(table_name, conn, if_exists="replace", index=False)` drops any
existing table of that name and stores the frame's columns and rows
verbatim; returns the new database and the success flag. -/
def load_data_from_dataframe (df : DataFrame) (table_name : String) (db : DB) :
    DB × Bool :=
  (dbSet db table_name df, true)

/-- Columns of the `egfr` table (src/dashboard1.py lines 87-95). -/
def egfrCols : List String :=
  ["id", "gene_name", "uniprot_accession", "sequence", "domain_structure"]

/-- Columns of the `aptamers` table (src/dashboard1.py lines 98-114). -/
def aptamersCols : List String :=
  ["id", "aptamer_id", "sequence", "sequence_modified", "length", "target",
   "binding_affinity", "modifications", "stability_data", "delivery_methods",
   "toxicity_data", "citations", "notes"]

/-- Columns of the `interactions` table (src/dashboard1.py lines 117-130). -/
def interactionsCols : List String :=
  ["id", "aptamer_id", "egfr_id", "interaction_type", "distance", "angle",
   "interacting_atoms", "interacting_residues"]

/-- One `CREATE TABLE IF NOT EXISTS name (...)` statement: if the table
exists the database is untouched, otherwise an empty table with the declared
columns is added. -/
def createTableIfNotExists (db : DB) (name : String) (cols : List String) :
    DB :=
  match dbLookup db name with
  | some _ => db
  | none => db ++ [(name, ⟨cols, []⟩)]

/-- Embeds `create_database_tables` (src/dashboard1.py lines 80-134): the
three `CREATE TABLE IF NOT EXISTS` statements in order. -/
def create_database_tables (db : DB) : DB :=
  createTableIfNotExists
    (createTableIfNotExists
      (createTableIfNotExists db "egfr" egfrCols)
      "aptamers" aptamersCols)
    "interactions" interactionsCols

/-- Split a character list at every occurrence of `sep`. -/
def splitOnChar (sep : Char) : List Char → List (List Char)
  | [] => [[]]
  | c :: rest =>
    if c = sep then [] :: splitOnChar sep rest
    else
      match splitOnChar sep rest with
      | [] => [[c]]
      | g :: gs => (c :: g) :: gs

/-- Decimal digits of a field, as a number (`none` if empty or non-digit). -/
def parseNatDigits : List Char → Option Nat
  | [] => none
  | cs => go cs 0
where
  go : List Char → Nat → Option Nat
  | [], acc => some acc
  | c :: rest, acc =>
    if '0' ≤ c ∧ c ≤ '9' then go rest (acc * 10 + (c.toNat - 48)) else none

/-- Integer rendering of a field, sign included. -/
def parseIntDigits : List Char → Option Int
  | '-' :: rest => (parseNatDigits rest).map (fun n => -(n : Int))
  | cs => (parseNatDigits cs).map (fun n => (n : Int))

/-- Models pandas type inference on one delimited field: empty fields load
as `NaN`/`NULL`, integer-looking fields as integers, anything else as
text. -/
def parseField (cs : List Char) : Value :=
  match cs with
  | [] => .null
  | _ =>
    match parseIntDigits cs with
    | some n => .int n
    | none => .text (String.mk cs)

/-- Parse the data lines at the established row width `w` (pandas' C
tokenizer): a line with more than `w` fields fails the whole parse
(pandas `ParserError`), a line with fewer is padded with `NULL` on the
right. -/
def parseRows (w : Nat) (sep : Char) :
    List (List Char) → Except String (List (List Value))
  | [] => .ok []
  | line :: rest =>
    let fields := splitOnChar sep line
    if fields.length > w then
      .error ("Expected " ++ toString w ++ " fields, saw " ++
        toString fields.length)
    else
      match parseRows w sep rest with
      | .error e => .error e
      | .ok rs =>
        .ok ((fields.map parseField ++
          List.replicate (w - fields.length) Value.null) :: rs)

/-- Models `pandas.read_csv` on in-memory delimited text (the upload and
the pasted-TSV paths of `main`), composed with what
`to_sql(..., index=False)` sees of the resulting frame.  The first
non-blank line is the header and blank lines are skipped.  The row width is
established by the header and the first data row together: when the first
data row carries more fields than the header names, its leading extra
columns become the row index (pandas' documented index-columns rule) and
parsing succeeds; `index=False` drops the index on write, so those leading
cells are dropped here.  Only a later row wider than the established width
fails the parse (`ParserError`); a narrower row is padded with `NULL`.
Empty input fails (`EmptyDataError`).  pandas itself is an external
library; this captures the behaviour the gateway relies on: a total parse
that either yields a whole frame or fails before anything is written. -/
def read_csv (sep : Char) (raw : String) : Except String DataFrame :=
  match (splitOnChar '\n' raw.data).filter (fun l => !l.isEmpty) with
  | [] => .error "No columns to parse from file"
  | header :: dataLines =>
    let cols := (splitOnChar sep header).map String.mk
    let w :=
      match dataLines with
      | [] => cols.length
      | first :: _ => max cols.length (splitOnChar sep first).length
    match parseRows w sep dataLines with
    | .error e => .error e
    | .ok rows => .ok ⟨cols, rows.map (fun r => r.drop (w - cols.length))⟩

/-- Embeds `load_data_from_csv` (src/dashboard1.py lines 57-68):
`pd.read_csv` runs to completion first; only on success is
`to_sql(if_exists="replace")` reached.  A parse exception is caught, the
function returns `False`, and the database is returned unchanged. -/
def load_data_from_csv (raw : String) (table_name : String) (db : DB) :
    DB × Bool :=
  match read_csv ',' raw with
  | .error _ => (db, false)
  | .ok df => load_data_from_dataframe df table_name db

/-- The detail lookup of the EGFR page (src/dashboard1.py line 229):
`SELECT * FROM egfr WHERE id = ?`. -/
def egfrDetails (conn : Option DB) (eid : Value) : DataFrame :=
  fetch_data conn (.selectWhereEq "egfr" "id" eid)

/-- Whether the EGFR page emits its `"EGFR not found."` message
(src/dashboard1.py lines 230-234): exactly when the detail frame is
empty. -/
def egfrNotFound (conn : Option DB) (eid : Value) : Bool :=
  (egfrDetails conn eid).isEmpty

/-- Column position, in `aptamersCols`, of each field of the search page's
allow-list `["aptamer_id", "sequence", "target"]` (src/dashboard1.py
line 257). -/
def aptFieldIdx : String → Nat
  | "aptamer_id" => 1
  | "sequence" => 2
  | "target" => 5
  | _ => 0

/-- The text stored at cell `i` of a row (used to state search results over
rows whose searched field holds text). -/
def textAt (r : List Value) (i : Nat) : String :=
  match r.get? i with
  | some (.text s) => s
  | _ => ""

/-- `t` occurs in `s` as a substring up to ASCII case folding — the
substring relation SQLite's default `LIKE` actually decides for
wildcard-free terms. -/
def containsCI (t s : String) : Bool :=
  containsSub (t.data.map foldChar) (s.data.map foldChar)

/-- A term with no `LIKE` metacharacter, so that `'%'+term+'%'` means plain
substring search. -/
def wildcardFree (t : String) : Prop :=
  ∀ c ∈ t.data, c ≠ '%' ∧ c ≠ '_'

instance (t : String) : Decidable (wildcardFree t) := by
  unfold wildcardFree
  infer_instance

/-- The cell at index `i` of the row holds a text value. -/
def isTextAt (r : List Value) (i : Nat) : Bool :=
  match r.get? i with
  | some (.text _) => true
  | _ => false

/-- The cell at index `i` of the row holds an integer value. -/
def isIntAt (r : List Value) (i : Nat) : Bool :=
  match r.get? i with
  | some (.int _) => true
  | _ => false

/-- A concrete aptamer row whose nucleotide sequence is the lower-case text
`"aaa"` (columns follow `aptamersCols`). -/
def aptRowLower : List Value :=
  [.int 1, .text "APT1", .text "aaa", .null, .int 3, .text "EGFR",
   .null, .null, .null, .null, .null, .null, .null]

/-- Database obtained by creating the schema and bulk-loading the single
row `aptRowLower` into `aptamers`. -/
def dbSearchLower : DB :=
  (load_data_from_dataframe ⟨aptamersCols, [aptRowLower]⟩ "aptamers"
    (create_database_tables [])).fst

/-- A concrete aptamer row whose target name is the lower-case text
`"egfr"`. -/
def aptRowTargetLower : List Value :=
  [.int 2, .text "APT2", .text "GGG", .null, .int 3, .text "egfr",
   .null, .null, .null, .null, .null, .null, .null]

/-- Database obtained by creating the schema and bulk-loading the single
row `aptRowTargetLower` into `aptamers`. -/
def dbFieldSearch : DB :=
  (load_data_from_dataframe ⟨aptamersCols, [aptRowTargetLower]⟩ "aptamers"
    (create_database_tables [])).fst

/-- A concrete single-row EGFR dataset whose `id` column holds 5. -/
def egfrRow5 : List Value :=
  [.int 5, .text "EGFR", .text "P00533", .text "SEQ", .text "DOM"]

/-- The same EGFR record except the dataset's `id` column holds 7. -/
def egfrRow7 : List Value :=
  [.int 7, .text "EGFR", .text "P00533", .text "SEQ", .text "DOM"]

/-- Database after creating the schema and loading `egfrRow5` into
`egfr`. -/
def dbLoad5 : DB :=
  (load_data_from_dataframe ⟨egfrCols, [egfrRow5]⟩ "egfr"
    (create_database_tables [])).fst

/-- Database after a second load that carries `egfrRow7` into `egfr`. -/
def dbLoad7 : DB :=
  (load_data_from_dataframe ⟨egfrCols, [egfrRow7]⟩ "egfr" dbLoad5).fst

/-- A concrete interactions table: two rows referencing EGFR id 1, one row
referencing EGFR id 2 (columns follow `interactionsCols`). -/
def interRows : List (List Value) :=
  [[.int 1, .int 1, .int 1, .text "hbond", .null, .null, .null, .null],
   [.int 2, .int 1, .int 2, .text "stack", .null, .null, .null, .null],
   [.int 3, .int 2, .int 1, .text "ionic", .null, .null, .null, .null]]

/-- Database with the schema created and `interRows` loaded into
`interactions`. -/
def dbInter : DB :=
  (load_data_from_dataframe ⟨interactionsCols, interRows⟩ "interactions"
    (create_database_tables [])).fst

/-- Database with the schema created and one EGFR row with id 1 loaded into
`egfr`. -/
def dbEgfrOne : DB :=
  (load_data_from_dataframe
    ⟨egfrCols, [[.int 1, .text "EGFR", .text "P00533", .text "SEQ",
      .text "DOM"]]⟩ "egfr" (create_database_tables [])).fst

/-! ### Lemmas about the catalog (association list) -/

theorem dbLookup_dbSet_self (db : DB) (n : String) (df : DataFrame) :
    dbLookup (dbSet db n df) n = some df := by
  induction db with
  | nil => simp [dbSet, dbLookup]
  | cons hd rest ih =>
    obtain ⟨m, t⟩ := hd
    by_cases h : m = n
    · simp [dbSet, h, dbLookup]
    · simp [dbSet, h, dbLookup, ih]

theorem dbLookup_append_some {db1 : DB} {n : String} {t : DataFrame}
    (db2 : DB) (h : dbLookup db1 n = some t) :
    dbLookup (db1 ++ db2) n = some t := by
  induction db1 with
  | nil => simp [dbLookup] at h
  | cons hd rest ih =>
    obtain ⟨m, u⟩ := hd
    by_cases hm : m = n
    · simpa [dbLookup, hm] using h
    · simp only [dbLookup, if_neg hm] at h ⊢
      exact ih h

theorem dbLookup_append_none_self {db : DB} {n : String}
    (t : DataFrame) (h : dbLookup db n = none) :
    dbLookup (db ++ [(n, t)]) n = some t := by
  induction db with
  | nil => simp [dbLookup]
  | cons hd rest ih =>
    obtain ⟨m, u⟩ := hd
    by_cases hm : m = n
    · simp [dbLookup, hm] at h
    · simp only [List.cons_append, dbLookup, if_neg hm] at h ⊢
      exact ih h

theorem createTableIfNotExists_isSome (db : DB) (n : String)
    (cols : List String) :
    (dbLookup (createTableIfNotExists db n cols) n).isSome := by
  unfold createTableIfNotExists
  cases h : dbLookup db n with
  | some t => simp [h]
  | none => simp [dbLookup_append_none_self _ h]

theorem createTableIfNotExists_preserves {db : DB} {m : String}
    (n : String) (cols : List String)
    (h : (dbLookup db m).isSome) :
    (dbLookup (createTableIfNotExists db n cols) m).isSome := by
  unfold createTableIfNotExists
  cases hn : dbLookup db n with
  | some t => simpa using h
  | none =>
    cases hm : dbLookup db m with
    | some t => simp [dbLookup_append_some _ hm]
    | none => simp [hm] at h

theorem createTableIfNotExists_noop {db : DB} {n : String}
    (cols : List String) (h : (dbLookup db n).isSome) :
    createTableIfNotExists db n cols = db := by
  unfold createTableIfNotExists
  cases hn : dbLookup db n with
  | some t => rfl
  | none => simp [hn] at h

/-- Reading a freshly (re)loaded table returns exactly the loaded frame. -/
theorem fetch_after_load (df : DataFrame) (name : String) (db : DB) :
    fetch_data (some (load_data_from_dataframe df name db).fst)
      (.selectAll name) = df := by
  simp [fetch_data, runQuery, load_data_from_dataframe, dbLookup_dbSet_self]

/-! ### Lemmas about SQLite LIKE -/

theorem anyTail_of_accepts_nil {f : List Char → Bool} (hf : f [] = true)
    (s : List Char) : anyTail f s = true := by
  induction s with
  | nil => simpa [anyTail] using hf
  | cons c s ih => simp [anyTail, ih]

theorem containsSub_nil_left (s : List Char) : containsSub [] s = true := by
  cases s <;> simp [containsSub, isPrefixList]

/-- A wildcard-free pattern followed by `%` accepts exactly the strings it
is a case-folded prefix of. -/
theorem likeMatch_append_percent {t : List Char}
    (ht : ∀ c ∈ t, c ≠ '%' ∧ c ≠ '_') :
    ∀ s : List Char,
      likeMatch (t ++ ['%']) s = isPrefixList (t.map foldChar) (s.map foldChar) := by
  induction t with
  | nil =>
    intro s
    simp only [List.nil_append, List.map_nil, isPrefixList]
    show likeMatch ['%'] s = true
    have h1 : likeMatch ['%'] s = anyTail (likeMatch []) s := rfl
    rw [h1]
    exact anyTail_of_accepts_nil rfl s
  | cons p t ih =>
    intro s
    obtain ⟨hp, hu⟩ := ht p (by simp)
    have ht' : ∀ c ∈ t, c ≠ '%' ∧ c ≠ '_' := fun c hc => ht c (by simp [hc])
    cases s with
    | nil =>
      simp [likeMatch, hp, isPrefixList]
    | cons c s' =>
      simp only [List.cons_append, likeMatch, if_neg hp, if_neg hu,
        List.map_cons, isPrefixList, List.append_eq, ih ht' s']

/-- SQLite's `'%' ++ term ++ '%'` pattern, for a wildcard-free term, decides
case-folded substring containment. -/
theorem likeMatch_likePattern {t : List Char}
    (ht : ∀ c ∈ t, c ≠ '%' ∧ c ≠ '_') :
    ∀ s : List Char,
      likeMatch ('%' :: (t ++ ['%'])) s
        = containsSub (t.map foldChar) (s.map foldChar) := by
  intro s
  show anyTail (likeMatch (t ++ ['%'])) s = _
  induction s with
  | nil =>
    simp only [anyTail, likeMatch_append_percent ht, List.map_nil, containsSub]
  | cons c s' ih =>
    simp only [anyTail, likeMatch_append_percent ht, List.map_cons,
      containsSub, ih]

/-- The text form of the pattern characterization. -/
theorem likeValue_text {term : String} (hw : wildcardFree term) (s : String) :
    likeValue term (.text s) = containsCI term s := by
  show likeMatch ('%' :: (term.data ++ ['%'])) s.data = _
  rw [likeMatch_likePattern hw]
  rfl

/-- An empty search term matches every text value. -/
theorem likeValue_text_empty (s : String) :
    likeValue "" (.text s) = true := by
  have hw : wildcardFree "" := by decide
  rw [likeValue_text hw]
  show containsSub ([].map foldChar) _ = true
  simp [containsSub_nil_left]

/-- The rows produced by `SELECT * FROM aptamers WHERE field LIKE ?` with
pattern `'%'+term+'%'`, for a wildcard-free term over text-valued cells:
exactly the rows whose field contains the term up to ASCII case folding. -/
theorem fetch_like_rows {db : DB} {rows : List (List Value)}
    (field term : String) (i : Nat)
    (hcol : colIndex aptamersCols field = some i)
    (hdb : dbLookup db "aptamers" = some ⟨aptamersCols, rows⟩)
    (hw : wildcardFree term)
    (ht : ∀ r ∈ rows, isTextAt r i = true) :
    (fetch_data (some db) (.selectWhereLike "aptamers" field term)).rows
      = rows.filter (fun r => containsCI term (textAt r i)) := by
  simp only [fetch_data, runQuery, hdb, hcol]
  refine List.filter_congr ?_
  intro r hr
  have hti := ht r hr
  unfold isTextAt at hti
  unfold rowLikeAt textAt
  cases hg : r.get? i with
  | none => rw [hg] at hti; simp at hti
  | some w =>
    rw [hg] at hti
    cases w with
    | text s => exact likeValue_text hw s
    | null => simp at hti
    | int n => simp at hti
    | real q => simp at hti

/-- The same query with the empty search term keeps every row with a
text-valued cell. -/
theorem fetch_like_rows_empty {db : DB} {rows : List (List Value)}
    (field : String) (i : Nat)
    (hcol : colIndex aptamersCols field = some i)
    (hdb : dbLookup db "aptamers" = some ⟨aptamersCols, rows⟩)
    (ht : ∀ r ∈ rows, isTextAt r i = true) :
    (fetch_data (some db) (.selectWhereLike "aptamers" field "")).rows
      = rows := by
  simp only [fetch_data, runQuery, hdb, hcol]
  have hall : ∀ r ∈ rows, rowLikeAt r i "" = (fun _ => true) r := by
    intro r hr
    have hti := ht r hr
    unfold isTextAt at hti
    unfold rowLikeAt
    cases hg : r.get? i with
    | none => rw [hg] at hti; simp at hti
    | some w =>
      rw [hg] at hti
      cases w with
      | text s => exact likeValue_text_empty s
      | null => simp at hti
      | int n => simp at hti
      | real q => simp at hti
  rw [List.filter_congr hall, List.filter_true]

/-! ### Claims -/

/-- C1: a bulk load into any destination table fully replaces the table's
prior contents: a subsequent unfiltered read returns exactly the newly
loaded dataset's columns and rows — none of the previously stored rows
survive (replace, not append or merge). -/
theorem load_replaces_contents (df : DataFrame) (name : String) (db : DB) :
    fetch_data (some (load_data_from_dataframe df name db).fst)
      (.selectAll name) = df :=
  fetch_after_load df name db

/-- C2: loading a single-row dataset with header columns `id, gene_name,
uniprot_accession, sequence, domain_structure` into the `egfr` table and
then reading all rows of that table returns exactly that one row, each
field equal to the loaded value. -/
theorem load_then_read_roundtrip (db : DB) (v1 v2 v3 v4 v5 : Value) :
    fetch_data
      (some (load_data_from_dataframe
        ⟨["id", "gene_name", "uniprot_accession", "sequence",
          "domain_structure"], [[v1, v2, v3, v4, v5]]⟩ "egfr" db).fst)
      (.selectAll "egfr")
      = ⟨["id", "gene_name", "uniprot_accession", "sequence",
          "domain_structure"], [[v1, v2, v3, v4, v5]]⟩ :=
  fetch_after_load _ _ db

/-- C3: running `create_database_tables` twice in succession gives the same
database as running it once — the second invocation leaves every table
(including `egfr`, `aptamers` and `interactions`) unchanged. -/
theorem create_database_tables_idempotent (db : DB) :
    create_database_tables (create_database_tables db)
      = create_database_tables db := by
  have he : (dbLookup (create_database_tables db) "egfr").isSome := by
    unfold create_database_tables
    exact createTableIfNotExists_preserves _ _
      (createTableIfNotExists_preserves _ _
        (createTableIfNotExists_isSome db "egfr" egfrCols))
  have ha : (dbLookup (create_database_tables db) "aptamers").isSome := by
    unfold create_database_tables
    exact createTableIfNotExists_preserves _ _
      (createTableIfNotExists_isSome _ "aptamers" aptamersCols)
  have hi : (dbLookup (create_database_tables db) "interactions").isSome :=
    createTableIfNotExists_isSome _ "interactions" interactionsCols
  show createTableIfNotExists
      (createTableIfNotExists
        (createTableIfNotExists (create_database_tables db) "egfr" egfrCols)
        "aptamers" aptamersCols)
      "interactions" interactionsCols = create_database_tables db
  rw [createTableIfNotExists_noop egfrCols he,
    createTableIfNotExists_noop aptamersCols ha,
    createTableIfNotExists_noop interactionsCols hi]

/-- C4 counterexample: on a candidate table holding one row whose sequence
is `"aaa"`, the search with term `"AAA"` returns that row even though
`"aaa"` does not contain `"AAA"` as a (case-sensitive) substring, because
SQLite's default `LIKE` folds ASCII case.  So the search does not return
exactly the rows whose sequence contains the term. -/
theorem search_AAA_case_cex :
    (fetch_data (some dbSearchLower)
        (.selectWhereLike "aptamers" "sequence" "AAA")).rows = [aptRowLower]
    ∧ containsSub "AAA".data "aaa".data = false := by
  constructor
  · decide
  · decide

/-- C4 (amended): over candidate rows whose sequence cells are text, the
search with term `"AAA"` returns exactly the rows whose sequence contains
`"AAA"` as an ASCII-case-insensitive substring, and the search with the
empty term returns all rows. -/
theorem search_AAA_ci (db : DB) (rows : List (List Value))
    (hdb : dbLookup db "aptamers" = some ⟨aptamersCols, rows⟩)
    (ht : ∀ r ∈ rows, isTextAt r 2 = true) :
    (fetch_data (some db)
        (.selectWhereLike "aptamers" "sequence" "AAA")).rows
      = rows.filter (fun r => containsCI "AAA" (textAt r 2))
    ∧ (fetch_data (some db)
        (.selectWhereLike "aptamers" "sequence" "")).rows = rows := by
  constructor
  · exact fetch_like_rows "sequence" "AAA" 2 rfl hdb (by decide) ht
  · exact fetch_like_rows_empty "sequence" 2 rfl hdb ht

/-- C4 witness: the amended statement evaluated on the concrete database
`dbSearchLower`. -/
theorem search_AAA_ci_witness :
    (fetch_data (some dbSearchLower)
        (.selectWhereLike "aptamers" "sequence" "AAA")).rows
      = [aptRowLower].filter (fun r => containsCI "AAA" (textAt r 2))
    ∧ (fetch_data (some dbSearchLower)
        (.selectWhereLike "aptamers" "sequence" "")).rows = [aptRowLower] :=
  search_AAA_ci dbSearchLower [aptRowLower] (by decide) (by decide)

/-- C5 counterexample: searching the allow-list field `target` for the term
`"EGFR"` returns a row whose target is `"egfr"`, which does not contain
`"EGFR"` as a case-sensitive substring: rows matching only under a
case-insensitive comparison ARE returned, so the search is not
case-sensitive. -/
theorem field_search_case_cex :
    (fetch_data (some dbFieldSearch)
        (.selectWhereLike "aptamers" "target" "EGFR")).rows
      = [aptRowTargetLower]
    ∧ containsSub "EGFR".data "egfr".data = false := by
  constructor
  · decide
  · decide

/-- C5 (amended): for every wildcard-free search term and every field of
the allow-list `aptamer_id`, `sequence`, `target`, over rows whose searched
cells are text, the search returns exactly the candidate rows whose chosen
field contains the term as an ASCII-case-insensitive substring (SQLite's
default `LIKE` collation). -/
theorem field_search_ci (field term : String) (db : DB)
    (rows : List (List Value))
    (hf : field ∈ (["aptamer_id", "sequence", "target"] : List String))
    (hw : wildcardFree term)
    (hdb : dbLookup db "aptamers" = some ⟨aptamersCols, rows⟩)
    (ht : ∀ r ∈ rows, isTextAt r (aptFieldIdx field) = true) :
    (fetch_data (some db) (.selectWhereLike "aptamers" field term)).rows
      = rows.filter (fun r => containsCI term (textAt r (aptFieldIdx field))) := by
  have hcol : colIndex aptamersCols field = some (aptFieldIdx field) := by
    simp only [List.mem_cons, List.not_mem_nil, or_false] at hf
    rcases hf with h | h | h <;> subst h <;> rfl
  exact fetch_like_rows field term _ hcol hdb hw ht

/-- C5 witness: the amended statement evaluated at field `target` and term
`"EGFR"` on the concrete database `dbFieldSearch`. -/
theorem field_search_ci_witness :
    (fetch_data (some dbFieldSearch)
        (.selectWhereLike "aptamers" "target" "EGFR")).rows
      = [aptRowTargetLower].filter
          (fun r => containsCI "EGFR" (textAt r (aptFieldIdx "target"))) :=
  field_search_ci "target" "EGFR" dbFieldSearch [aptRowTargetLower]
    (by decide) (by decide) (by decide) (by decide)

/-- C6: filtering interactions by an EGFR identifier returns exactly the
rows whose `egfr_id` cell equals that identifier, and the `All` choice
(an unfiltered `SELECT * FROM interactions`) returns the whole table. -/
theorem interaction_filter_exact (db : DB) (rows : List (List Value))
    (v : Int)
    (hdb : dbLookup db "interactions" = some ⟨interactionsCols, rows⟩)
    (ht : ∀ r ∈ rows, isIntAt r 2 = true) :
    (fetch_data (some db)
        (.selectWhereEq "interactions" "egfr_id" (.int v))).rows
      = rows.filter (fun r => decide (r.get? 2 = some (Value.int v)))
    ∧ fetch_data (some db) (.selectAll "interactions")
      = ⟨interactionsCols, rows⟩ := by
  constructor
  · simp only [fetch_data, runQuery, hdb]
    show List.filter _ rows = _
    refine List.filter_congr ?_
    intro r hr
    have hti := ht r hr
    unfold isIntAt at hti
    unfold rowEqAt
    cases hg : r.get? 2 with
    | none => rw [hg] at hti; simp at hti
    | some w =>
      rw [hg] at hti
      cases w with
      | int n =>
        by_cases h : n = v
        · subst h; simp [sqlEq]
        · simp [sqlEq, h]
      | null => simp at hti
      | text s => simp at hti
      | real q => simp at hti
  · simp [fetch_data, runQuery, hdb]

/-- C6 witness: the statement evaluated on the concrete database `dbInter`
with identifier 1. -/
theorem interaction_filter_exact_witness :
    (fetch_data (some dbInter)
        (.selectWhereEq "interactions" "egfr_id" (.int 1))).rows
      = interRows.filter (fun r => decide (r.get? 2 = some (Value.int 1)))
    ∧ fetch_data (some dbInter) (.selectAll "interactions")
      = ⟨interactionsCols, interRows⟩ :=
  interaction_filter_exact dbInter interRows 1 (by decide) (by decide)

/-- C7: a specific-identifier lookup for an identifier not present in the
`egfr` table (no row's `id` cell is SQL-equal to it) returns an empty
result, and the `"EGFR not found."` message is emitted; that message is
emitted exactly when the lookup result is empty. -/
theorem lookup_absent_not_found (db : DB) (rows : List (List Value))
    (eid : Value)
    (hdb : dbLookup db "egfr" = some ⟨egfrCols, rows⟩)
    (habs : ∀ r ∈ rows, rowEqAt r 0 eid = false) :
    egfrDetails (some db) eid = ⟨egfrCols, []⟩
    ∧ egfrNotFound (some db) eid = true
    ∧ egfrNotFound (some db) eid = (egfrDetails (some db) eid).isEmpty := by
  have hdet : egfrDetails (some db) eid = ⟨egfrCols, []⟩ := by
    have hcid : colIndex egfrCols "id" = some 0 := rfl
    simp only [egfrDetails, fetch_data, runQuery, hdb, hcid]
    have hnil : List.filter (fun r => rowEqAt r 0 eid) rows = [] :=
      List.filter_eq_nil_iff.mpr (fun r hr => by simp [habs r hr])
    rw [hnil]
  refine ⟨hdet, ?_, rfl⟩
  rw [egfrNotFound, hdet]
  rfl

/-- C7 witness: the statement evaluated on `dbEgfrOne` (one row with id 1)
at the absent identifier 2. -/
theorem lookup_absent_not_found_witness :
    egfrDetails (some dbEgfrOne) (.int 2) = ⟨egfrCols, []⟩
    ∧ egfrNotFound (some dbEgfrOne) (.int 2) = true
    ∧ egfrNotFound (some dbEgfrOne) (.int 2)
        = (egfrDetails (some dbEgfrOne) (.int 2)).isEmpty :=
  lookup_absent_not_found dbEgfrOne
    [[.int 1, .text "EGFR", .text "P00533", .text "SEQ", .text "DOM"]]
    (.int 2) (by decide) (by decide)

/-- C8: `fetch_data` is total (it never propagates an error): on an absent
connection it returns the empty frame, and whenever the underlying query
fails it also returns the empty frame. -/
theorem fetch_data_failure_empty (q : Query) :
    fetch_data none q = emptyDF
    ∧ ∀ db : DB, runQuery db q = none → fetch_data (some db) q = emptyDF := by
  refine ⟨rfl, ?_⟩
  intro db h
  show (match runQuery db q with | none => emptyDF | some df => df) = emptyDF
  rw [h]

/-- C8 witness: evaluated at `SELECT * FROM egfr` with no connection and
with an empty database (where the query fails: no such table). -/
theorem fetch_data_failure_empty_witness :
    fetch_data none (Query.selectAll "egfr") = emptyDF
    ∧ fetch_data (some []) (Query.selectAll "egfr") = emptyDF :=
  ⟨(fetch_data_failure_empty (Query.selectAll "egfr")).1,
   (fetch_data_failure_empty (Query.selectAll "egfr")).2 [] rfl⟩

/-- C9 counterexample: after creating the schema and bulk-loading a
one-row dataset whose `id` column holds 5, the stored row's identifier is
the caller-supplied 5 (not an auto-assigned 1); a second load of the same
record with `id` 7 leaves the table holding identifier 7.  Row identifiers
are therefore supplied by the caller through the load path, and a reload
replaces them. -/
theorem id_caller_supplied_cex :
    (fetch_data (some dbLoad5) (.selectAll "egfr")).rows = [egfrRow5]
    ∧ (fetch_data (some dbLoad7) (.selectAll "egfr")).rows = [egfrRow7] := by
  constructor
  · decide
  · decide

/-- C9 (amended): the schema declares `id` as auto-assigned, but the
gateway's only write path — the bulk replace load — stores the dataset's
cells verbatim, `id` column included: the stored identifier is exactly the
value the dataset carried. -/
theorem load_stores_dataset_ids (db : DB) (idv g u s d0 : Value) :
    dbLookup
      (load_data_from_dataframe
        ⟨egfrCols, [[idv, g, u, s, d0]]⟩ "egfr" db).fst "egfr"
      = some ⟨egfrCols, [[idv, g, u, s, d0]]⟩ :=
  dbLookup_dbSet_self db "egfr" _

/-- C10: when parsing of the delimited input fails, `load_data_from_csv`
returns the failure flag and the database — hence every destination
table — is completely unchanged: the parse runs to completion before any
write begins. -/
theorem csv_parse_failure_no_write (raw table_name : String) (db : DB)
    (e : String) (h : read_csv ',' raw = .error e) :
    load_data_from_csv raw table_name db = (db, false) := by
  unfold load_data_from_csv
  rw [h]

/-- C10 witness: the malformed input `"a,b\n1,2\n1,2,3"` — the header and
first data row establish a width of two fields, and the third line carries
three — fails the parse (pandas `ParserError: Expected 2 fields, saw 3`)
and leaves the freshly created database unchanged. -/
theorem csv_parse_failure_no_write_witness :
    load_data_from_csv "a,b\n1,2\n1,2,3" "egfr" (create_database_tables [])
      = (create_database_tables [], false) :=
  csv_parse_failure_no_write _ _ _ "Expected 2 fields, saw 3" rfl

end Radar
